import Mathlib

/-!
Verification of the llm-council backend against its specification.

The definitions below are a shallow embedding of the Python sources:
`backend/openrouter.py`, `backend/council.py`, `backend/storage.py` and
`backend/main.py`.  Python dicts are embedded as insertion-ordered
association lists (`Dict`): inserting an existing key replaces its value
in place, a new key is appended at the end, and iteration follows this
order, exactly as Python 3.7+ dicts behave.  Network calls are abstracted
as oracle parameters (a function from the model name to the outcome of
the call); everything downstream of the call outcome is translated
directly from the source.  Fallible Python code (raising functions)
returns `Except`; `None`-returning code returns `Option`.
-/

namespace LlmCouncil

/-- Insertion-ordered association list standing in for a Python dict. -/
abbrev Dict (V : Type) := List (String × V)

/-- `d.get(k)`: first value bound to `k`, if any. -/
def dictGet {V : Type} : Dict V → String → Option V
  | [], _ => none
  | p :: d, k => if p.1 == k then some p.2 else dictGet d k

/-- `d[k] = v`: replace in place when `k` is already a key, append otherwise
(Python dicts keep the original insertion position on update). -/
def dictInsert {V : Type} (d : Dict V) (k : String) (v : V) : Dict V :=
  if (dictGet d k).isSome then
    d.map (fun p => if p.1 == k then (k, v) else p)
  else
    d ++ [(k, v)]

/-- One entry of `stage1_results` (council.py, `stage1_collect_responses`). -/
structure Stage1Result where
  model : String
  response : Option String
  error : Option String
  deriving DecidableEq, Repr

/-- One parsed item of a judge ranking: a label and a reason. -/
structure RankEntry where
  label : String
  reason : String
  deriving DecidableEq, Repr

/-- One entry of `stage2_results` (council.py, `stage2_collect_rankings`). -/
structure Stage2Result where
  model : String
  ranking : Option (List RankEntry)
  error : Option String
  deriving DecidableEq, Repr

/-- The stage-3 payload (council.py, `stage3_synthesize_final`). -/
structure Stage3Result where
  response : String
  error : Option String
  deriving DecidableEq, Repr

/-- The per-model accumulator of `calculate_aggregate_rankings`
(`model_scores[model]` = total_score and the 1-based rank list). -/
structure ScoreData where
  total_score : Nat
  rankings : List Nat
  deriving DecidableEq, Repr

/-- One entry of the aggregate ranking list (council.py, lines 269-279). -/
structure AggregateRanking where
  model : String
  total_score : Nat
  average_score : ℚ
  average_rank : ℚ
  rankings_count : Nat
  deriving DecidableEq, Repr

/-- The metadata dict built by `run_full_council` (council.py, lines 84-88). -/
structure Metadata where
  label_to_model : Dict String
  aggregate_rankings : List AggregateRanking
  timestamp : String
  deriving DecidableEq, Repr

/-! ### openrouter.py -/

/-- Outcome of the HTTP POST inside `query_model`: either the client raised,
or it produced a status code together with the content extracted from the
JSON body (`none` when `response.json()[...]` extraction fails — that
failure happens inside the `try` block). -/
inductive TransportOutcome where
  | exn (message : String)
  | resp (status : Nat) (content : Option String)
  deriving DecidableEq, Repr

/-- Model-identifier cleanup at the top of `query_model` (openrouter.py,
lines 31-36): drop a duplicated leading provider segment. -/
def normalize_model (model : String) : String :=
  let parts := model.splitOn "/"
  if parts.length ≥ 2 ∧ parts.get? 0 = parts.get? 1 then
    String.intercalate "/" parts.tail
  else
    model

/-- `query_model` (openrouter.py, lines 7-68).  `api_key` is the argument,
`default_key` the module-level `OPENROUTER_API_KEY`; `transport` maps the
normalized model actually sent to the outcome of the HTTP call.
`.error` is a raised exception, `.ok none` is the soft-failure `None`. -/
def query_model (api_key default_key : Option String) (model : String)
    (transport : String → TransportOutcome) : Except String (Option String) :=
  let key := match api_key with
    | none => default_key
    | some k => some k
  match key with
  | none => Except.error "OpenRouter API key is required"
  | some _ =>
    match transport (normalize_model model) with
    | TransportOutcome.exn _ => Except.ok none
    | TransportOutcome.resp status content =>
      if status = 200 then Except.ok content else Except.ok none

/-- `rank_responses` (openrouter.py, lines 184-235), downstream of the model
call.  `call_result` is what `query_model` returned for the judge's own
call; `parse` abstracts `json.loads` on the returned content.  A failed
call (`none`) yields the empty ranking; unparseable content raises. -/
def rank_responses (parse : String → Option (List RankEntry))
    (call_result : Option String) : Except String (List RankEntry) :=
  match call_result with
  | none => Except.ok []
  | some content =>
    match parse content with
    | some ranking => Except.ok ranking
    | none => Except.error ("Failed to parse ranking response: " ++ content)

/-- `get_model_response` (openrouter.py, lines 100-149): resolves the API
key (raising ValueError when neither the argument nor the configured key
is present), delegates the call to `query_model`, and on line 149 —
`return response["content"] if response else "Error: No response from
model"` — converts an absent response, which is how `query_model` reports
a transport error, timeout or non-success status, into the SUCCESS string
"Error: No response from model" rather than into an exception.  A
per-model call failure therefore never raises out of this function. -/
def get_model_response (api_key default_key : Option String) (model : String)
    (transport : String → TransportOutcome) : Except String String :=
  let key := match api_key with
    | none => default_key
    | some k => some k
  match key with
  | none => Except.error "OpenRouter API key is required"
  | some k =>
    match query_model (some k) default_key model transport with
    | Except.error e => Except.error e
    | Except.ok (some response) => Except.ok response
    | Except.ok none => Except.ok "Error: No response from model"

/-! ### council.py -/

/-- `generate_conversation_title` (council.py, lines 9-24): declared with a
SINGLE parameter (`user_query`); when actually entered it catches every
exception from the underlying call and falls back to "New Conversation",
so the function body itself never raises.  `title_call` is the outcome of
its internal `openrouter.generate_title` call. -/
def generate_conversation_title (title_call : Except String String) : String :=
  match title_call with
  | Except.ok title => title
  | Except.error _ => "New Conversation"

/-- The invocation `generate_conversation_title(request.content,
request.api_key)` found at main.py lines 179 and 287.  The callee
(council.py, line 9) takes one parameter, so this two-argument call raises
`TypeError` at the call site, before the callee's own exception handler
can run — the arguments are never consumed. -/
def generate_conversation_title_call (_content : String) (_api_key : Option String) :
    Except String String :=
  Except.error
    "TypeError: generate_conversation_title() takes 1 positional argument but 2 were given"

/-- `stage1_collect_responses` (council.py, lines 92-146): one result per
configured model, in the configured order; an exception from the call is
recorded in the `error` slot.  In the deployed wiring `respond` is
`get_model_response`, which masks per-model transport failures as the
success string "Error: No response from model", so the `error` slot is
only ever populated by call-time exceptions such as the missing-API-key
ValueError (which hits every model alike). -/
def stage1_collect_responses (respond : String → Except String String)
    (council_models : List String) : List Stage1Result :=
  council_models.map fun model =>
    match respond model with
    | Except.ok response => { model := model, response := some response, error := none }
    | Except.error e => { model := model, response := none, error := some e }

/-- `chr(65 + i)` as a one-character string: the anonymization label of the
i-th stage-1 success. -/
def labelStr (i : Nat) : String := String.singleton (Char.ofNat (65 + i))

/-- `stage2_collect_rankings` (council.py, lines 148-218).  `judge` maps a
judge model and the anonymized label→response dict to the outcome of
`rank_responses` for that judge. -/
def stage2_collect_rankings
    (judge : String → Dict (Option String) → Except String (List RankEntry))
    (stage1_results : List Stage1Result) (council_models : List String) :
    List Stage2Result × Dict String :=
  let successful_results := stage1_results.filter fun r => r.error.isNone
  if successful_results.isEmpty then ([], [])
  else
    let model_to_label := successful_results.enum.foldl
      (fun d p => dictInsert d p.2.model (labelStr p.1)) []
    let label_to_model := successful_results.enum.foldl
      (fun d p => dictInsert d (labelStr p.1) p.2.model) []
    let anonymized_responses := successful_results.foldl
      (fun d r => dictInsert d ((dictGet model_to_label r.model).getD "") r.response) []
    let results := council_models.map fun model =>
      match judge model anonymized_responses with
      | Except.ok ranking => { model := model, ranking := some ranking, error := none }
      | Except.error e => { model := model, ranking := none, error := some e }
    (results, label_to_model)

/-- Body of the inner `for rank, entry in enumerate(ranks)` loop of
`calculate_aggregate_rankings` (council.py, lines 254-266): an entry whose
label is unknown to `label_to_model` leaves the accumulator unchanged. -/
def process_entry (label_to_model : Dict String) (max_score : Nat)
    (model_scores : Dict ScoreData) (p : Nat × RankEntry) : Dict ScoreData :=
  match dictGet label_to_model p.2.label with
  | none => model_scores
  | some model =>
    let cur := (dictGet model_scores model).getD { total_score := 0, rankings := [] }
    dictInsert model_scores model
      { total_score := cur.total_score + (max_score - p.1),
        rankings := cur.rankings ++ [p.1 + 1] }

/-- Body of the outer `for ranking in successful_rankings` loop of
`calculate_aggregate_rankings` (council.py, lines 247-266), including the
`if not ranks: continue` guard. -/
def process_ranking (label_to_model : Dict String) (model_scores : Dict ScoreData)
    (ranks : List RankEntry) : Dict ScoreData :=
  if ranks.isEmpty then model_scores
  else ranks.enum.foldl (process_entry label_to_model ranks.length) model_scores

/-- Stable insertion used to model Python `list.sort(key=..., reverse=True)`:
an element moves left only past strictly smaller keys, so equal keys keep
their original relative order. -/
def sortInsertDesc (a : AggregateRanking) : List AggregateRanking → List AggregateRanking
  | [] => [a]
  | b :: t => if b.average_score < a.average_score then a :: b :: t else b :: sortInsertDesc a t

/-- Stable descending sort by `average_score` (council.py, line 282):
elements are inserted left to right, each after every already-placed
element with an equal key, so ties keep their original relative order,
as Python's `list.sort` guarantees. -/
def sortByScoreDesc (l : List AggregateRanking) : List AggregateRanking :=
  l.foldl (fun acc a => sortInsertDesc a acc) []

/-- `calculate_aggregate_rankings` (council.py, lines 220-284). -/
def calculate_aggregate_rankings (stage2_results : List Stage2Result)
    (label_to_model : Dict String) : List AggregateRanking :=
  if stage2_results.isEmpty ∨ label_to_model.isEmpty then []
  else
    let successful_rankings := stage2_results.filter fun r => r.ranking.isSome
    if successful_rankings.isEmpty then []
    else
      let total_rankings := successful_rankings.length
      let model_scores := successful_rankings.foldl
        (fun acc r => process_ranking label_to_model acc (r.ranking.getD [])) []
      let aggregate := model_scores.map fun p =>
        { model := p.1,
          total_score := p.2.total_score,
          average_score := (p.2.total_score : ℚ) / (total_rankings : ℚ),
          average_rank := (p.2.rankings.sum : ℚ) / (p.2.rankings.length : ℚ),
          rankings_count := p.2.rankings.length : AggregateRanking }
      sortByScoreDesc aggregate

/-- `stage3_synthesize_final` (council.py, lines 286-335).  `chairman` maps
the successful stage-1 and stage-2 entries to the outcome of
`synthesize_final_response`. -/
def stage3_synthesize_final
    (chairman : List Stage1Result → List Stage2Result → Except String String)
    (stage1_results : List Stage1Result) (stage2_results : List Stage2Result) :
    Stage3Result :=
  let successful_stage1 := stage1_results.filter fun r => r.error.isNone
  let successful_stage2 := stage2_results.filter fun r => r.ranking.isSome
  if successful_stage1.isEmpty then
    { response := "Sorry, all models failed to generate responses.",
      error := some "No successful responses from stage 1" }
  else
    match chairman successful_stage1 successful_stage2 with
    | Except.ok response => { response := response, error := none }
    | Except.error e =>
      { response := "Sorry, the chairman model failed to synthesize a final response.",
        error := some e }

/-- `run_full_council` (council.py, lines 26-90): the three stages in
sequence, then the aggregate metadata. -/
def run_full_council (respond : String → Except String String)
    (judge : String → Dict (Option String) → Except String (List RankEntry))
    (chairman : List Stage1Result → List Stage2Result → Except String String)
    (council_models : List String) :
    List Stage1Result × List Stage2Result × Stage3Result × Metadata :=
  let stage1_results := stage1_collect_responses respond council_models
  let s2 := stage2_collect_rankings judge stage1_results council_models
  let stage3_result := stage3_synthesize_final chairman stage1_results s2.1
  let aggregate_rankings := calculate_aggregate_rankings s2.1 s2.2
  (stage1_results, s2.1, stage3_result,
    { label_to_model := s2.2, aggregate_rankings := aggregate_rankings, timestamp := "now" })

/-! ### storage.py -/

/-- A message of a conversation (storage.py, `add_user_message` /
`add_assistant_message`): user messages carry the content plus optional
quoted items and file-name list; assistant messages carry the three
stages. -/
inductive Message where
  | user (content : String) (quoted_items : Option (List String))
      (files : Option (List String))
  | assistant (stage1 : List Stage1Result) (stage2 : List Stage2Result)
      (stage3 : Stage3Result)
  deriving DecidableEq

/-- The persisted conversation record (storage.py, `create_conversation`). -/
structure Conversation where
  id : String
  created_at : String
  title : String
  messages : List Message
  client_id : Option String
  deriving DecidableEq

/-- The local data directory: one JSON file per conversation id. -/
def Store : Type := String → Option Conversation

/-- `create_conversation` (storage.py, lines 49-83): write a fresh record
under the given id and return it.  `now` abstracts `datetime.utcnow()`. -/
def create_conversation (s : Store) (cid : String) (client_id : Option String)
    (now : String) : Store × Conversation :=
  let conversation : Conversation :=
    { id := cid, created_at := now, title := "New Conversation",
      messages := [], client_id := client_id }
  (fun k => if k = cid then some conversation else s k, conversation)

/-- `get_conversation` (storage.py, lines 107-142).  Local miss returns
`none` immediately (the GitHub background sync never affects the returned
value).  The ownership guard is Python's
`if client_id and conversation.get("client_id") and stored != client_id`,
where the empty string is falsy. -/
def get_conversation (s : Store) (cid : String) (client_id : Option String) :
    Option Conversation :=
  match s cid with
  | none => none
  | some conversation =>
    match client_id, conversation.client_id with
    | some c, some stored =>
      if c ≠ "" ∧ stored ≠ "" ∧ stored ≠ c then none else some conversation
    | _, _ => some conversation

/-- `save_conversation` (storage.py, lines 145-177): whole-record overwrite
keyed by the record's own `id` field. -/
def save_conversation (s : Store) (conversation : Conversation) : Store :=
  fun k => if k = conversation.id then some conversation else s k

/-- `add_user_message` (storage.py, lines 255-279): raises `ValueError`
when the id is not found, otherwise appends and saves. -/
def add_user_message (s : Store) (cid : String) (content : String)
    (quoted_items : Option (List String)) (files : Option (List String)) :
    Except String Store :=
  match get_conversation s cid none with
  | none => Except.error ("Conversation " ++ cid ++ " not found")
  | some conversation =>
    Except.ok (save_conversation s
      { conversation with
        messages := conversation.messages ++ [Message.user content quoted_items files] })

/-- `add_assistant_message` (storage.py, lines 282-302). -/
def add_assistant_message (s : Store) (cid : String) (stage1 : List Stage1Result)
    (stage2 : List Stage2Result) (stage3 : Stage3Result) : Except String Store :=
  match get_conversation s cid none with
  | none => Except.error ("Conversation " ++ cid ++ " not found")
  | some conversation =>
    Except.ok (save_conversation s
      { conversation with
        messages := conversation.messages ++ [Message.assistant stage1 stage2 stage3] })

/-- `update_conversation_title` (storage.py, lines 305-314). -/
def update_conversation_title (s : Store) (cid : String) (title : String) :
    Except String Store :=
  match get_conversation s cid none with
  | none => Except.error ("Conversation " ++ cid ++ " not found")
  | some conversation =>
    Except.ok (save_conversation s { conversation with title := title })

/-- `delete_conversation` (storage.py, lines 328-348): remove the local
file when it exists and report whether it did. -/
def delete_conversation (s : Store) (cid : String) : Store × Bool :=
  match s cid with
  | some _ => (fun k => if k = cid then none else s k, true)
  | none => (s, false)

/-! ### main.py -/

/-- `GET /api/conversations/\x7bid\x7d` (main.py, lines 88-100): a missing
result becomes HTTP 404 with detail "Conversation not found". -/
def api_get_conversation (s : Store) (cid : String) (client_id : Option String) :
    Except (Nat × String) Conversation :=
  match get_conversation s cid client_id with
  | none => Except.error (404, "Conversation not found")
  | some conversation => Except.ok conversation

/-- Observable actions of the two message endpoints, in program order:
storage writes (`addUser`, `titleUpdate`, `addAssistant`), the streamed
SSE events (`stage*`, `titleComplete`, `complete`, `errorEv`), the moment
`run_full_council` returns in the blocking endpoint (`pipelineDone`), the
blocking endpoint's HTTP response (`respond`), the 404 guard (`http404`)
and a propagated exception (`exn`). -/
inductive Ev where
  | http404
  | exn
  | addUser
  | titleUpdate
  | pipelineDone
  | addAssistant
  | respond
  | stage1Start
  | stage1Complete
  | stage2Start
  | stage2Complete
  | stage3Start
  | stage3Complete
  | titleComplete
  | complete
  | errorEv
  deriving DecidableEq

/-- Tail of `send_message` (main.py, lines 183-206): run the council, then
persist the assistant message, then answer the request. -/
def send_message_finish (s : Store) (cid : String) (evs : List Ev)
    (respond : String → Except String String)
    (judge : String → Dict (Option String) → Except String (List RankEntry))
    (chairman : List Stage1Result → List Stage2Result → Except String String)
    (council_models : List String) : Store × List Ev :=
  let out := run_full_council respond judge chairman council_models
  match add_assistant_message s cid out.1 out.2.1 out.2.2.1 with
  | Except.error _ => (s, evs ++ [Ev.pipelineDone, Ev.exn])
  | Except.ok s3 => (s3, evs ++ [Ev.pipelineDone, Ev.addAssistant, Ev.respond])

/-- `POST /api/conversations/\x7bid\x7d/message` (main.py, lines 103-206):
ownership-checked lookup, user-message append, then — only for a first
message — the title step of lines 178-180: `title = await
generate_conversation_title(request.content, request.api_key)` followed by
`update_conversation_title`.  The title call is the two-argument
invocation `generate_conversation_title_call`; an exception here is not
caught by the endpoint, so it aborts the request (`Ev.exn`, an HTTP 500)
before the council ever runs.  Otherwise: council run, assistant-message
append, response. -/
def send_message (s : Store) (cid : String) (client_id : Option String)
    (content : String) (quoted_items files : Option (List String))
    (api_key : Option String)
    (respond : String → Except String String)
    (judge : String → Dict (Option String) → Except String (List RankEntry))
    (chairman : List Stage1Result → List Stage2Result → Except String String)
    (council_models : List String) : Store × List Ev :=
  match get_conversation s cid client_id with
  | none => (s, [Ev.http404])
  | some conversation =>
    let is_first_message := conversation.messages.isEmpty
    match add_user_message s cid content quoted_items files with
    | Except.error _ => (s, [Ev.exn])
    | Except.ok s1 =>
      if is_first_message then
        match generate_conversation_title_call content api_key with
        | Except.error _ => (s1, [Ev.addUser, Ev.exn])
        | Except.ok title =>
          match update_conversation_title s1 cid title with
          | Except.error _ => (s1, [Ev.addUser, Ev.exn])
          | Except.ok s2 =>
            send_message_finish s2 cid [Ev.addUser, Ev.titleUpdate]
              respond judge chairman council_models
      else
        send_message_finish s1 cid [Ev.addUser] respond judge chairman council_models

/-- Tail of the `event_generator` of `send_message_stream` (main.py,
lines 328-341): persist the assistant message, then emit the terminal
`complete` event; an exception is caught and becomes an `error` event. -/
def send_message_stream_finish (s : Store) (cid : String) (evs : List Ev)
    (stage1 : List Stage1Result) (stage2 : List Stage2Result) (stage3 : Stage3Result) :
    Store × List Ev :=
  match add_assistant_message s cid stage1 stage2 stage3 with
  | Except.error _ => (s, evs ++ [Ev.errorEv])
  | Except.ok s3 => (s3, evs ++ [Ev.addAssistant, Ev.complete])

/-- `POST /api/conversations/\x7bid\x7d/message/stream` (main.py, lines
209-350): the sequential actions of `event_generator`.  For a first
message, line 287 evaluates `generate_conversation_title(request.content,
request.api_key)` while creating the title task — BEFORE the
`stage1_start` yield of line 290 — so an exception there is caught by the
generator's `except` and ends the stream with a single `error` event.  If
the task is created, its value is only observed (and the title persisted)
after the `stage3_complete` event.  `title_task` below carries the
awaited value of a created task; its creation outcome is
`generate_conversation_title_call`. -/
def send_message_stream (s : Store) (cid : String) (client_id : Option String)
    (content : String) (quoted_items files : Option (List String))
    (api_key : Option String)
    (respond : String → Except String String)
    (judge : String → Dict (Option String) → Except String (List RankEntry))
    (chairman : List Stage1Result → List Stage2Result → Except String String)
    (council_models : List String) : Store × List Ev :=
  match get_conversation s cid client_id with
  | none => (s, [Ev.http404])
  | some conversation =>
    let is_first_message := conversation.messages.isEmpty
    match add_user_message s cid content quoted_items files with
    | Except.error _ => (s, [Ev.errorEv])
    | Except.ok s1 =>
      match (if is_first_message then
          (generate_conversation_title_call content api_key).map some
        else Except.ok none) with
      | Except.error _ => (s1, [Ev.addUser, Ev.errorEv])
      | Except.ok title_task =>
        let stage1_results := stage1_collect_responses respond council_models
        let s2r := stage2_collect_rankings judge stage1_results council_models
        let stage3_result := stage3_synthesize_final chairman stage1_results s2r.1
        let evs := [Ev.addUser, Ev.stage1Start, Ev.stage1Complete, Ev.stage2Start,
          Ev.stage2Complete, Ev.stage3Start, Ev.stage3Complete]
        match title_task with
        | some title =>
          match update_conversation_title s1 cid title with
          | Except.error _ => (s1, evs ++ [Ev.errorEv])
          | Except.ok s2 =>
            send_message_stream_finish s2 cid (evs ++ [Ev.titleUpdate, Ev.titleComplete])
              stage1_results s2r.1 stage3_result
        | none =>
          send_message_stream_finish s1 cid evs stage1_results s2r.1 stage3_result

/-! ### Specification-side characterizations and concrete fixtures -/

/-- Spec §8 scenario: three council models, `model2` fails in stage 1. -/
def c3_stage1 : List Stage1Result :=
  [{ model := "model1", response := some "r1", error := none },
   { model := "model2", response := none, error := some "timeout" },
   { model := "model3", response := some "r3", error := none }]

/-- Spec §8 scenario judges: `model1` ranks `[B, A]`, `model3` ranks
`[A, B]`, `model2`'s ranking output fails to parse. -/
def c3_judge : String → Dict (Option String) → Except String (List RankEntry) :=
  fun m _ =>
    if m = "model1" then
      Except.ok [{ label := "B", reason := "best" }, { label := "A", reason := "second" }]
    else if m = "model3" then
      Except.ok [{ label := "A", reason := "best" }, { label := "B", reason := "second" }]
    else
      Except.error "Failed to parse ranking response: garbled"

/-- Stage 2 of the spec §8 scenario. -/
def c3_run : List Stage2Result × Dict String :=
  stage2_collect_rankings c3_judge c3_stage1 ["model1", "model2", "model3"]

/-- Aggregate rankings of the spec §8 scenario. -/
def c3_aggregate : List AggregateRanking :=
  calculate_aggregate_rankings c3_run.1 c3_run.2

/-- A stage-1 oracle on which every model call raises. -/
def oracleRespondFail : String → Except String String := fun _ => Except.error "down"

/-- A judge oracle that always returns the empty ranking. -/
def oracleJudgeEmpty : String → Dict (Option String) → Except String (List RankEntry) :=
  fun _ _ => Except.ok []

/-- A chairman oracle that always synthesizes successfully. -/
def oracleChairman : List Stage1Result → List Stage2Result → Except String String :=
  fun _ _ => Except.ok "final"

/-- A judge result with a usable one-entry ranking, used as witness input. -/
def c1wJudge : Stage2Result :=
  { model := "j2", ranking := some [{ label := "A", reason := "good" }], error := none }

/-- A judge result whose output failed to parse, used as witness input. -/
def c1wParseFail : Stage2Result :=
  { model := "jX", ranking := none, error := some "parse" }

/-- The echo judge: reports back exactly the anonymized dict it was shown,
one ranking entry per label, with the response text as the reason. -/
def oracleJudgeEcho : String → Dict (Option String) → Except String (List RankEntry) :=
  fun _ anonymized =>
    Except.ok (anonymized.map fun p => { label := p.1, reason := p.2.getD "" })

/-- The deployed stage-1 wiring — every model call goes through
`get_model_response` — during a provider outage in which every HTTP call
returns status 500, with an API key present. -/
def c2Respond : String → Except String String :=
  fun m => get_model_response (some "key") none m fun _ => TransportOutcome.resp 500 none

/-- Stage 1 as the program computes it for three models in that outage. -/
def c2Stage1Real : List Stage1Result :=
  stage1_collect_responses c2Respond ["m1", "m2", "m3"]

/-- An owner-less conversation used as a concrete witness input. -/
def wConv : Conversation :=
  { id := "c1", created_at := "t0", title := "New Conversation",
    messages := [], client_id := none }

/-- A one-conversation store holding `wConv`. -/
def wStore : Store := fun k => if k = "c1" then some wConv else none

/-- A conversation owned by client "alice". -/
def wOwnedConv : Conversation :=
  { id := "c1", created_at := "t0", title := "New Conversation",
    messages := [], client_id := some "alice" }

/-- A one-conversation store holding `wOwnedConv`. -/
def wOwnedStore : Store := fun k => if k = "c1" then some wOwnedConv else none

/-- A call outcome that is a transport error or a non-success HTTP status. -/
def transport_failed : TransportOutcome → Bool
  | TransportOutcome.exn _ => true
  | TransportOutcome.resp status _ => status != 200

/-! ### Helper lemmas about the dict embedding -/

/-! ### Helper lemmas about the stable sort -/

lemma mem_sortInsertDesc {a x : AggregateRanking} :
    ∀ {l : List AggregateRanking}, a ∈ sortInsertDesc x l ↔ a = x ∨ a ∈ l := by
  intro l
  induction l with
  | nil => simp [sortInsertDesc]
  | cons b t ih =>
    by_cases h : b.average_score < x.average_score
    · simp [sortInsertDesc, h]
    · simp [sortInsertDesc, h, ih]
      tauto

lemma mem_sortInsertFoldl {a : AggregateRanking} :
    ∀ (l d : List AggregateRanking),
      a ∈ l.foldl (fun acc x => sortInsertDesc x acc) d ↔ a ∈ d ∨ a ∈ l := by
  intro l
  induction l with
  | nil => simp
  | cons b t ih =>
    intro d
    simp only [List.foldl_cons]
    rw [ih (sortInsertDesc b d)]
    simp [mem_sortInsertDesc]
    tauto

lemma mem_sortByScoreDesc {a : AggregateRanking} :
    ∀ {l : List AggregateRanking}, a ∈ sortByScoreDesc l ↔ a ∈ l := by
  intro l
  rw [sortByScoreDesc, mem_sortInsertFoldl]
  simp

/-! ### Helper lemmas about storage and Except -/

lemma exceptBind_ok {ε α β : Type} (x : α) (f : α → Except ε β) :
    (Except.ok x : Except ε α).bind f = f x := rfl

lemma exceptMap_ok {ε α β : Type} (x : α) (f : α → β) :
    ((Except.ok x : Except ε α).map f : Except ε β) = Except.ok (f x) := rfl

lemma get_conversation_none_client (s : Store) (cid : String) (conv : Conversation)
    (hs : s cid = some conv) : get_conversation s cid none = some conv := by
  simp [get_conversation, hs]

lemma add_user_message_ok (s : Store) (cid : String) (conv : Conversation)
    (content : String) (q f : Option (List String)) (hs : s cid = some conv) :
    add_user_message s cid content q f =
      Except.ok (save_conversation s
        { conv with messages := conv.messages ++ [Message.user content q f] }) := by
  simp [add_user_message, get_conversation_none_client s cid conv hs]

lemma get_conversation_some_store (s : Store) (cid : String) (client : Option String)
    (conv : Conversation) (h : get_conversation s cid client = some conv) :
    s cid = some conv := by
  cases hs : s cid with
  | none => simp [get_conversation, hs] at h
  | some c =>
    simp only [get_conversation, hs] at h
    cases client with
    | none => simpa using h
    | some cl =>
      cases hcc : c.client_id with
      | none => rw [hcc] at h; simpa using h
      | some stored =>
        rw [hcc] at h
        by_cases hcond : ¬cl = "" ∧ ¬stored = "" ∧ ¬stored = cl
        · simp [hcond] at h
        · simp only [if_neg hcond] at h
          simpa using h

/-! ### C5 — the model gateway fails soft -/

/-- C5: when an API key resolves (so the HTTP call is actually reached),
`query_model` never raises whatever the call outcome is, and a transport
error or non-success status in particular yields `None`. -/
theorem c5_query_model_fails_soft (api_key default_key : Option String) (model : String)
    (transport : String → TransportOutcome)
    (hkey : api_key ≠ none ∨ default_key ≠ none)
    (hfail : transport_failed (transport (normalize_model model)) = true) :
    (∀ t2 : String → TransportOutcome,
        ∃ r, query_model api_key default_key model t2 = Except.ok r) ∧
    query_model api_key default_key model transport = Except.ok none := by
  have hkeq : ∃ k, (match api_key with
      | none => default_key
      | some k2 => some k2) = some k := by
    cases api_key with
    | none =>
      cases default_key with
      | none => rcases hkey with h | h <;> exact absurd rfl h
      | some dk => exact ⟨dk, rfl⟩
    | some k => exact ⟨k, rfl⟩
  obtain ⟨k, hk⟩ := hkeq
  constructor
  · intro t2
    simp only [query_model, hk]
    cases ht : t2 (normalize_model model) with
    | exn m => exact ⟨none, rfl⟩
    | resp st c =>
      by_cases h2 : st = 200
      · exact ⟨c, by simp [h2]⟩
      · exact ⟨none, by simp [h2]⟩
  · simp only [query_model, hk]
    cases ht : transport (normalize_model model) with
    | exn m => rfl
    | resp st c =>
      rw [ht] at hfail
      have hne : st ≠ 200 := by simpa [transport_failed] using hfail
      simp [hne]

/-- Witness for C5: a key is supplied and the call returns HTTP 500. -/
theorem c5_witness :
    ((some "key" : Option String) ≠ none ∨ (none : Option String) ≠ none) ∧
    transport_failed ((fun _ => TransportOutcome.resp 500 none) (normalize_model "x/y")) = true ∧
    query_model (some "key") none "x/y" (fun _ => TransportOutcome.resp 500 none) =
      Except.ok none :=
  ⟨Or.inl (by simp), rfl,
    (c5_query_model_fails_soft (some "key") none "x/y" (fun _ => TransportOutcome.resp 500 none)
      (Or.inl (by simp)) rfl).2⟩

/-! ### C6 — ownership mismatch is indistinguishable from non-existence -/

/-- C6: whenever every record stored under `cid` (there is at most one) has
a non-empty owner different from the non-empty caller id — which covers
both the case that no record exists and the case that the stored owner
mismatches — `get_conversation` returns `none`, and the HTTP layer turns
it into the same 404 payload as a nonexistent id.  The caller cannot
distinguish the two cases from the result. -/
theorem c6_mismatch_indistinguishable (s : Store) (cid caller : String)
    (hcaller : caller ≠ "")
    (howner : ∀ conv, s cid = some conv →
      ∃ stored, conv.client_id = some stored ∧ stored ≠ "" ∧ stored ≠ caller) :
    get_conversation s cid (some caller) = none ∧
    api_get_conversation s cid (some caller) =
      Except.error (404, "Conversation not found") := by
  have h1 : get_conversation s cid (some caller) = none := by
    cases hs : s cid with
    | none => simp [get_conversation, hs]
    | some conv =>
      obtain ⟨stored, hcl, hne, hnec⟩ := howner conv hs
      simp [get_conversation, hs, hcl, hcaller, hne, hnec]
  exact ⟨h1, by simp [api_get_conversation, h1]⟩

/-- Witness for C6: a store owned by "alice", queried by "bob". -/
theorem c6_witness :
    ("bob" : String) ≠ "" ∧
    (∀ conv, wOwnedStore "c1" = some conv →
      ∃ stored, conv.client_id = some stored ∧ stored ≠ "" ∧ stored ≠ "bob") ∧
    get_conversation wOwnedStore "c1" (some "bob") = none ∧
    api_get_conversation wOwnedStore "c1" (some "bob") =
      Except.error (404, "Conversation not found") := by
  have hh : ∀ conv, wOwnedStore "c1" = some conv →
      ∃ stored, conv.client_id = some stored ∧ stored ≠ "" ∧ stored ≠ "bob" := by
    intro conv hc
    have hcv : wOwnedConv = conv := by simpa [wOwnedStore] using hc
    exact ⟨"alice", by simp [← hcv, wOwnedConv], by decide, by decide⟩
  exact ⟨by decide, hh,
    (c6_mismatch_indistinguishable wOwnedStore "c1" "bob" (by decide) hh).1,
    (c6_mismatch_indistinguishable wOwnedStore "c1" "bob" (by decide) hh).2⟩

/-! ### C8 — create / append / append / delete / get -/

/-- C8: after creating a conversation, appending a user message, appending
an assistant message and deleting the id, a subsequent get (under any
caller id) returns absence; and `delete_conversation` returns `true`
exactly when a local record existed. -/
theorem c8_create_append_delete (s : Store) (cid : String) (client : Option String)
    (now content : String) (q f : Option (List String))
    (st1 : List Stage1Result) (st2 : List Stage2Result) (st3 : Stage3Result)
    (any_client : Option String) :
    (((add_user_message (create_conversation s cid client now).1 cid content q f).bind
        fun s2 => add_assistant_message s2 cid st1 st2 st3).map
      fun s3 => ((delete_conversation s3 cid).2,
                 get_conversation (delete_conversation s3 cid).1 cid any_client))
      = Except.ok (true, none) ∧
    (delete_conversation s cid).2 = (s cid).isSome := by
  constructor
  · simp [create_conversation, add_user_message, add_assistant_message, get_conversation,
      save_conversation, delete_conversation, exceptBind_ok, exceptMap_ok]
  · cases hs : s cid <;> simp [delete_conversation, hs]

/-! ### C9 — owner-less records are readable by any caller -/

/-- C9: a stored conversation whose `client_id` is null is returned to
every caller, whatever client id (or none) the caller supplies: the
ownership filter only bites when both sides are present and truthy. -/
theorem c9_ownerless_readable (s : Store) (cid : String) (conv : Conversation)
    (client : Option String) (hs : s cid = some conv) (hanon : conv.client_id = none) :
    get_conversation s cid client = some conv := by
  cases client <;> simp [get_conversation, hs, hanon]

/-- Witness for C9: the owner-less `wConv` read by caller "bob". -/
theorem c9_witness :
    wStore "c1" = some wConv ∧ wConv.client_id = none ∧
    get_conversation wStore "c1" (some "bob") = some wConv :=
  ⟨rfl, rfl, c9_ownerless_readable wStore "c1" wConv (some "bob") rfl rfl⟩

/-! ### C10 — unknown labels are silently skipped -/

/-- C10: a ranking entry whose label is not in `label_to_model` leaves the
score accumulator untouched (it scores no model and appends to no rank
list), and a whole ranking of unknown labels leaves it untouched too; the
aggregation is total, so such entries never make it fail. -/
theorem c10_unknown_label_skipped (label_to_model : Dict String) (max_score : Nat)
    (model_scores : Dict ScoreData) (rank : Nat) (entry : RankEntry)
    (h : dictGet label_to_model entry.label = none) :
    process_entry label_to_model max_score model_scores (rank, entry) = model_scores ∧
    (∀ ranks : List RankEntry, (∀ e ∈ ranks, dictGet label_to_model e.label = none) →
      process_ranking label_to_model model_scores ranks = model_scores) := by
  constructor
  · simp [process_entry, h]
  · intro ranks hall
    by_cases he : ranks.isEmpty
    · simp [process_ranking, he]
    · have hfold : ∀ (l : List (Nat × RankEntry)) (acc : Dict ScoreData),
          (∀ p ∈ l, dictGet label_to_model p.2.label = none) →
          l.foldl (process_entry label_to_model ranks.length) acc = acc := by
        intro l
        induction l with
        | nil => intro acc _; rfl
        | cons p t ih =>
          intro acc hl
          simp only [List.foldl_cons]
          rw [show process_entry label_to_model ranks.length acc p = acc from by
            simp [process_entry, hl p (by simp)]]
          exact ih acc fun p2 hp2 => hl p2 (by simp [hp2])
      have hmem : ∀ p ∈ ranks.enum, dictGet label_to_model p.2.label = none := by
        intro p hp
        have hsnd : p.2 ∈ ranks := by
          have hmm := List.mem_map_of_mem Prod.snd hp
          rwa [List.enum_map_snd] at hmm
        exact hall p.2 hsnd
      simp [process_ranking, he, hfold ranks.enum model_scores hmem]

/-! ### C4 — zero stage-1 successes short-circuit the pipeline -/

/-- C4: when every configured model's stage-1 call fails, stage 2 yields an
empty result list and an empty label map, stage 3 is the fixed failure
payload, the metadata is empty, every stage-1 slot records an error, and
the whole pipeline still returns its full tuple — moreover the result does
not depend on the judge or chairman oracles at all (neither is called). -/
theorem c4_all_failed (respond : String → Except String String)
    (judge : String → Dict (Option String) → Except String (List RankEntry))
    (chairman : List Stage1Result → List Stage2Result → Except String String)
    (council_models : List String)
    (h : ∀ m ∈ council_models, ∃ e, respond m = Except.error e) :
    (run_full_council respond judge chairman council_models).2.1 = [] ∧
    (run_full_council respond judge chairman council_models).2.2.1 =
      { response := "Sorry, all models failed to generate responses.",
        error := some "No successful responses from stage 1" } ∧
    (run_full_council respond judge chairman council_models).2.2.2 =
      { label_to_model := [], aggregate_rankings := [], timestamp := "now" } ∧
    (∀ r ∈ (run_full_council respond judge chairman council_models).1, r.error.isSome) ∧
    (∀ judge2 chairman2,
      run_full_council respond judge2 chairman2 council_models =
        run_full_council respond judge chairman council_models) := by
  have hfail : ∀ r ∈ stage1_collect_responses respond council_models, r.error.isSome := by
    intro r hr
    simp only [stage1_collect_responses, List.mem_map] at hr
    obtain ⟨m, hm, rfl⟩ := hr
    obtain ⟨e, he⟩ := h m hm
    rw [he]
    rfl
  have hnil : (stage1_collect_responses respond council_models).filter
      (fun r => r.error.isNone) = [] := by
    rw [List.filter_eq_nil_iff]
    intro r hr
    have hsome := hfail r hr
    simp [Option.isNone_iff_eq_none]
    intro hc
    rw [hc] at hsome
    simp at hsome
  refine ⟨?_, ?_, ?_, hfail, ?_⟩
  · simp [run_full_council, stage2_collect_rankings, hnil]
  · simp [run_full_council, stage2_collect_rankings, stage3_synthesize_final, hnil]
  · simp [run_full_council, stage2_collect_rankings, stage3_synthesize_final,
      calculate_aggregate_rankings, hnil]
  · intro judge2 chairman2
    simp [run_full_council, stage2_collect_rankings, stage3_synthesize_final,
      calculate_aggregate_rankings, hnil]

/-- Witness for C4: two models, both failing. -/
theorem c4_witness :
    (∀ m ∈ ["m1", "m2"], ∃ e, oracleRespondFail m = Except.error e) ∧
    (run_full_council oracleRespondFail oracleJudgeEmpty oracleChairman ["m1", "m2"]).2.1 = [] ∧
    (run_full_council oracleRespondFail oracleJudgeEmpty oracleChairman ["m1", "m2"]).2.2.1 =
      { response := "Sorry, all models failed to generate responses.",
        error := some "No successful responses from stage 1" } ∧
    (run_full_council oracleRespondFail oracleJudgeEmpty oracleChairman ["m1", "m2"]).2.2.2 =
      { label_to_model := [], aggregate_rankings := [], timestamp := "now" } ∧
    (∀ r ∈ (run_full_council oracleRespondFail oracleJudgeEmpty oracleChairman ["m1", "m2"]).1,
      r.error.isSome) ∧
    (∀ judge2 chairman2,
      run_full_council oracleRespondFail judge2 chairman2 ["m1", "m2"] =
        run_full_council oracleRespondFail oracleJudgeEmpty oracleChairman ["m1", "m2"]) := by
  have hw : ∀ m ∈ ["m1", "m2"], ∃ e, oracleRespondFail m = Except.error e := by
    intro m _
    exact ⟨"down", rfl⟩
  obtain ⟨h1, h2, h3, h4, h5⟩ :=
    c4_all_failed oracleRespondFail oracleJudgeEmpty oracleChairman ["m1", "m2"] hw
  exact ⟨hw, h1, h2, h3, h4, h5⟩

/-! ### C1 — the average-score denominator -/

lemma average_score_eq_total_div_valid (stage2 : List Stage2Result) (ltm : Dict String) :
    ∀ a ∈ calculate_aggregate_rankings stage2 ltm,
      a.average_score = (a.total_score : ℚ) /
        ((stage2.filter fun r => r.ranking.isSome).length : ℚ) := by
  intro a ha
  simp only [calculate_aggregate_rankings] at ha
  split at ha
  · simp at ha
  · split at ha
    · simp at ha
    · rw [mem_sortByScoreDesc] at ha
      obtain ⟨p, hp, rfl⟩ := List.mem_map.mp ha
      rfl

/-- C1, amended: `average_score` divides by the number of judges whose
ranking is not `None` — every judge whose output parsed, including a judge
whose own model call failed (such a judge's `rank_responses` returns the
empty list, which is not `None`, so it counts in the denominator while
adding nothing to any numerator).  Only a judge whose output failed to
parse (`ranking = None`) is excluded from both the numerator and the
denominator: deleting such a judge from `stage2_results` leaves the
aggregate unchanged. -/
theorem c1_amended_global_denominator (pre post : List Stage2Result)
    (label_to_model : Dict String) (judge_model err : String) :
    (∀ a ∈ calculate_aggregate_rankings (pre ++ post) label_to_model,
        a.average_score = (a.total_score : ℚ) /
          (((pre ++ post).filter fun r => r.ranking.isSome).length : ℚ)) ∧
    calculate_aggregate_rankings
        (pre ++ [{ model := judge_model, ranking := none, error := some err }] ++ post)
        label_to_model =
      calculate_aggregate_rankings (pre ++ post) label_to_model := by
  refine ⟨average_score_eq_total_div_valid (pre ++ post) label_to_model, ?_⟩
  have hfe : ((pre ++ [({ model := judge_model, ranking := none, error := some err } :
          Stage2Result)] ++ post).filter fun r => r.ranking.isSome) =
      ((pre ++ post).filter fun r => r.ranking.isSome) := by
    simp [List.filter_append]
  by_cases hltm : label_to_model.isEmpty
  · simp [calculate_aggregate_rankings, hltm]
  · by_cases h0 : (pre ++ post).isEmpty
    · have hpe : pre = [] := by
        cases pre <;> simp_all
      have hqe : post = [] := by
        cases post <;> simp_all
      subst hpe; subst hqe
      simp [calculate_aggregate_rankings, hltm]
    · have h1 : ((pre ++ [({ model := judge_model, ranking := none, error := some err } :
            Stage2Result)] ++ post).isEmpty) = false := by
        cases pre <;> simp
      have h0' : (pre ++ post).isEmpty = false := by
        cases hb : (pre ++ post).isEmpty
        · rfl
        · exact absurd hb h0
      simp only [calculate_aggregate_rankings, hfe, h1, h0', hltm]

/-- Counterexample for C1 as stated: judge `j1`'s own model call failed, so
`rank_responses` returned the empty ranking (recorded as a non-`None`
ranking); only judge `j2` returned a usable ranking `[A]`.  The claim's
denominator (judges with any valid ranking, call-failed judges excluded)
is 1, predicting average_score 1; the code divides by 2. -/
theorem c1_counterexample :
    rank_responses (fun _ => none) none = Except.ok [] ∧
    calculate_aggregate_rankings
      [{ model := "j1", ranking := some [], error := none },
       { model := "j2", ranking := some [{ label := "A", reason := "good" }], error := none }]
      [("A", "m1")] =
      [{ model := "m1", total_score := 1, average_score := (1 : ℚ) / 2,
         average_rank := 1, rankings_count := 1 }] ∧
    (1 : ℚ) / 2 ≠ 1 / 1 := by
  refine ⟨rfl, ?_, by norm_num⟩
  norm_num [calculate_aggregate_rankings, process_ranking, process_entry, dictGet, dictInsert,
    sortByScoreDesc, sortInsertDesc]

/-- Witness for C1's amended theorem at a concrete input. -/
theorem c1_amended_witness :
    (∀ a ∈ calculate_aggregate_rankings ([c1wJudge] ++ []) [("A", "m1")],
        a.average_score = (a.total_score : ℚ) /
          ((([c1wJudge] ++ []).filter fun r : Stage2Result => r.ranking.isSome).length : ℚ)) ∧
    calculate_aggregate_rankings ([c1wJudge] ++ [c1wParseFail] ++ []) [("A", "m1")] =
      calculate_aggregate_rankings ([c1wJudge] ++ []) [("A", "m1")] :=
  c1_amended_global_denominator [c1wJudge] [] [("A", "m1")] "jX" "parse"

/-! ### C3 — the spec §8 tie-break scenario -/

/-- Counterexample for C3 as stated: in the spec scenario the two valid
rankings are `[B, A]` (judge model1) and `[A, B]` (judge model3).  Labels
are A=model1, B=model3 as claimed, and both models end with
average_score and average_rank 3/2 — but the first model encountered while
folding the rankings is model3 (label B heads the first valid ranking), so
the stable sort places model3 first, not model1. -/
theorem c3_counterexample :
    c3_run.2 = [("A", "model1"), ("B", "model3")] ∧
    c3_aggregate.map AggregateRanking.model = ["model3", "model1"] ∧
    ["model3", "model1"] ≠ ["model1", "model3"] := by
  have h1 : c3_run =
      ([{ model := "model1",
          ranking := some [{ label := "B", reason := "best" },
                           { label := "A", reason := "second" }], error := none },
        { model := "model2", ranking := none,
          error := some "Failed to parse ranking response: garbled" },
        { model := "model3",
          ranking := some [{ label := "A", reason := "best" },
                           { label := "B", reason := "second" }], error := none }],
       [("A", "model1"), ("B", "model3")]) := by
    decide
  have h2 : c3_aggregate =
      [{ model := "model3", total_score := 3, average_score := (3 : ℚ) / 2,
         average_rank := (3 : ℚ) / 2, rankings_count := 2 },
       { model := "model1", total_score := 3, average_score := (3 : ℚ) / 2,
         average_rank := (3 : ℚ) / 2, rankings_count := 2 }] := by
    rw [c3_aggregate, h1]
    simp [calculate_aggregate_rankings, process_ranking, process_entry, dictGet, dictInsert,
      sortByScoreDesc, sortInsertDesc, List.enum, List.enumFrom]
    norm_num [sortInsertDesc]
  refine ⟨by rw [h1], by rw [h2]; rfl, by decide⟩

/-- C3, amended: same scenario, same scores — both models get
average_score 3/2 and average_rank 3/2 — but the tie is resolved by
first-encounter order during aggregation, which is model3 first (its label
B is ranked first by the first valid judge), then model1. -/
theorem c3_amended_scenario :
    c3_aggregate =
      [{ model := "model3", total_score := 3, average_score := (3 : ℚ) / 2,
         average_rank := (3 : ℚ) / 2, rankings_count := 2 },
       { model := "model1", total_score := 3, average_score := (3 : ℚ) / 2,
         average_rank := (3 : ℚ) / 2, rankings_count := 2 }] := by
  have h1 : c3_run =
      ([{ model := "model1",
          ranking := some [{ label := "B", reason := "best" },
                           { label := "A", reason := "second" }], error := none },
        { model := "model2", ranking := none,
          error := some "Failed to parse ranking response: garbled" },
        { model := "model3",
          ranking := some [{ label := "A", reason := "best" },
                           { label := "B", reason := "second" }], error := none }],
       [("A", "model1"), ("B", "model3")]) := by
    decide
  rw [c3_aggregate, h1]
  simp [calculate_aggregate_rankings, process_ranking, process_entry, dictGet, dictInsert,
    sortByScoreDesc, sortInsertDesc, List.enum, List.enumFrom]
  norm_num [sortInsertDesc]

/-- Witness for C10: label "X" is unknown to the map `[("A", "m")]`. -/
theorem c10_witness :
    dictGet [("A", "m")] ("X" : String) = none ∧
    process_entry [("A", "m")] 3 [] (0, { label := "X", reason := "?" }) = [] ∧
    process_ranking [("A", "m")] [] [{ label := "X", reason := "?" }] = [] := by
  refine ⟨rfl, ?_, ?_⟩
  · exact (c10_unknown_label_skipped [("A", "m")] 3 [] 0
      { label := "X", reason := "?" } rfl).1
  · exact (c10_unknown_label_skipped [("A", "m")] 3 [] 0
      { label := "X", reason := "?" } rfl).2 [{ label := "X", reason := "?" }]
      (by intro e he; simp at he; rw [he]; rfl)

/-! ### C2 — anonymization labels vs. masked stage-1 call failures -/

/-- C2 states the spec's intent, but the code violates it.  With an API
key present and every model call failing with HTTP 500 — the spec's
per-model failure — `get_model_response` returns the success string
"Error: No response from model" (openrouter.py, line 149), so stage 1
records `error = None` for every call-failed model, `stage2_collect_rankings`
assigns those models the labels "A", "B", "C", and the placeholder text is
exactly what every judge is shown: the echo judge reads it back under each
label.  The claim says a call-failed model receives no label and its
output is never passed to stage 2. -/
theorem c2_code_bug :
    get_model_response (some "key") none "m2" (fun _ => TransportOutcome.resp 500 none) =
      Except.ok "Error: No response from model" ∧
    c2Stage1Real =
      [{ model := "m1", response := some "Error: No response from model", error := none },
       { model := "m2", response := some "Error: No response from model", error := none },
       { model := "m3", response := some "Error: No response from model", error := none }] ∧
    (stage2_collect_rankings oracleJudgeEcho c2Stage1Real ["m1", "m2", "m3"]).2 =
      [("A", "m1"), ("B", "m2"), ("C", "m3")] ∧
    (stage2_collect_rankings oracleJudgeEcho c2Stage1Real ["m1", "m2", "m3"]).1.map
        (fun r => r.ranking) =
      [some [{ label := "A", reason := "Error: No response from model" },
             { label := "B", reason := "Error: No response from model" },
             { label := "C", reason := "Error: No response from model" }],
       some [{ label := "A", reason := "Error: No response from model" },
             { label := "B", reason := "Error: No response from model" },
             { label := "C", reason := "Error: No response from model" }],
       some [{ label := "A", reason := "Error: No response from model" },
             { label := "B", reason := "Error: No response from model" },
             { label := "C", reason := "Error: No response from model" }]] := by
  refine ⟨rfl, ?_, ?_, ?_⟩ <;> decide

/-! ### C7 — first-message persistence is broken by the title call -/

/-- C7 states the intended behavior, but the code breaks it on every
first-message request: main.py lines 179 and 287 invoke the one-parameter
`generate_conversation_title` (council.py, line 9) with two arguments,
which raises TypeError at the call site.  In the blocking endpoint the
exception escapes after the user message is appended: the assistant
message is appended ZERO times, not once.  In the streaming endpoint the
generator catches it while creating the title task — before the
`stage1_start` yield — and emits a single `error` event: no stage events,
no assistant-message write, and no terminal `complete`. -/
theorem c7_code_bug (s : Store) (cid : String) (client : Option String)
    (conv : Conversation) (content : String) (q f : Option (List String))
    (api_key : Option String)
    (respond : String → Except String String)
    (judge : String → Dict (Option String) → Except String (List RankEntry))
    (chairman : List Stage1Result → List Stage2Result → Except String String)
    (council_models : List String)
    (hget : get_conversation s cid client = some conv)
    (hfirst : conv.messages.isEmpty = true) :
    (∃ e, generate_conversation_title_call content api_key = Except.error e) ∧
    (send_message s cid client content q f api_key respond judge chairman
        council_models).2 = [Ev.addUser, Ev.exn] ∧
    (send_message s cid client content q f api_key respond judge chairman
        council_models).2.count Ev.addAssistant = 0 ∧
    (send_message_stream s cid client content q f api_key respond judge chairman
        council_models).2 = [Ev.addUser, Ev.errorEv] ∧
    (send_message_stream s cid client content q f api_key respond judge chairman
        council_models).2.count Ev.addAssistant = 0 ∧
    Ev.complete ∉ (send_message_stream s cid client content q f api_key respond judge
        chairman council_models).2 := by
  have hs : s cid = some conv := get_conversation_some_store s cid client conv hget
  have h1 := add_user_message_ok s cid conv content q f hs
  refine ⟨⟨_, rfl⟩, ?_, ?_, ?_, ?_, ?_⟩ <;>
    simp [send_message, send_message_stream, hget, hfirst, h1,
      generate_conversation_title_call, Except.map]

/-- Witness for C7's code-bug theorem: a first message on `wStore`. -/
theorem c7_code_bug_witness :
    get_conversation wStore "c1" none = some wConv ∧
    wConv.messages.isEmpty = true ∧
    (∃ e, generate_conversation_title_call "hi" (some "key") = Except.error e) ∧
    (send_message wStore "c1" none "hi" none none (some "key") oracleRespondFail
        oracleJudgeEmpty oracleChairman ["m1"]).2 = [Ev.addUser, Ev.exn] ∧
    (send_message_stream wStore "c1" none "hi" none none (some "key") oracleRespondFail
        oracleJudgeEmpty oracleChairman ["m1"]).2 = [Ev.addUser, Ev.errorEv] := by
  obtain ⟨he, h2, _h3, h4, _h5, _h6⟩ := c7_code_bug wStore "c1" none wConv "hi" none none
    (some "key") oracleRespondFail oracleJudgeEmpty oracleChairman ["m1"] (by decide) rfl
  exact ⟨by decide, rfl, he, h2, h4⟩

end LlmCouncil
